import Mathlib

set_option autoImplicit false

/-!
# Verification of the hf_downloader cache-aware retrieval engine

A shallow embedding of `hfdownloader/downloader.go`.  Pure computations
(commit-hash derivation, sibling filtering, cache-folder naming, ignore
filtering) are translated directly.  Filesystem state is modelled as an
explicit association list from paths to nodes (regular files with string
contents, or symbolic links), and every filesystem-touching function of the
source becomes a state-passing Lean function over that model.  Network
responses (the tree listing, the HEAD probe, the GET body) and
environment-dependent oracles (regular-expression compilation and matching,
home-directory lookup, symlink support) are inputs to the model, so a theorem
quantifying over them covers every behaviour of those collaborators.
-/

namespace HfDownloader

/-- One entry of the remote tree listing, as decoded in `getModelInfo`
(fields `type`, `path`, `oid`, `size`; the unused `lfs` marker is omitted). -/
structure TreeEntry where
  type : String
  path : String
  oid : String
  size : Int
deriving Repr, DecidableEq

/-- One sibling of `ModelInfo` (fields `RID`, `Size`, `Blob`). -/
structure Sibling where
  rid : String
  size : Int
  blob : String
deriving Repr, DecidableEq

/-- The sibling list built by `getModelInfo` from the decoded listing:
entries of type `"file"` only, carrying path, size and oid. -/
def siblingsOf (files : List TreeEntry) : List Sibling :=
  (files.filter (fun f => f.type = "file")).map
    (fun f => { rid := f.path, size := f.size, blob := f.oid })

/-- Commit-hash derivation of `getModelInfo` (downloader.go lines 284-290):
start from the `X-Repo-Commit` header value; if it is empty and the listing is
non-empty, take the oid of the first listed entry; if the result is still
empty, fall back to the revision label. -/
def deriveCommitHash (headerCommit : String) (files : List TreeEntry)
    (revision : String) : String :=
  let c1 := headerCommit
  let c2 :=
    match files with
    | [] => c1
    | f :: _ => if c1 = "" then f.oid else c1
  if c2 = "" then revision else c2

/-- The commit derivation exactly as claim C5 words it: the header value when
non-empty; otherwise, when the listing is non-empty, the content hash of the
first listed file; otherwise the revision label itself. -/
def claimedCommitId (headerCommit : String) (files : List TreeEntry)
    (revision : String) : String :=
  if headerCommit ≠ "" then headerCommit
  else
    match files with
    | [] => revision
    | f :: _ => f.oid

/-- C5 amended: as C5, except that the fallback to the first listed entry's
oid applies only when that oid is non-empty; an empty first oid falls through
to the revision label. -/
def amendedCommitId (headerCommit : String) (files : List TreeEntry)
    (revision : String) : String :=
  if headerCommit ≠ "" then headerCommit
  else
    match files with
    | [] => revision
    | f :: _ => if f.oid ≠ "" then f.oid else revision

/-- Model of `repoFolderName` (downloader.go lines 402-406): the repo-kind tag with an
`s` suffix, joined with the `/`-separated parts of the repo id by `--`. -/
def repoFolderName (repoID repoType : String) : String :=
  String.intercalate "--" ((repoType ++ "s") :: repoID.splitOn "/")

/-! ## Filesystem model -/

/-- A filesystem node: a regular file with its byte content (modelled as a
string), or a symbolic link to a target path. -/
inductive Node where
  | file (content : String)
  | link (target : String)
deriving Repr, DecidableEq

/-- Filesystem state: an association list from absolute paths to nodes. -/
abbrev FS := List (String × Node)

/-- Look a path up in the filesystem. -/
def fsLookup (fs : FS) (p : String) : Option Node :=
  match fs with
  | [] => none
  | (q, n) :: rest => if q = p then some n else fsLookup rest p

/-- Remove a path from the filesystem. -/
def fsRemove (fs : FS) (p : String) : FS :=
  match fs with
  | [] => []
  | (q, n) :: rest => if q = p then fsRemove rest p else (q, n) :: fsRemove rest p

/-- Create or overwrite the node at a path. -/
def fsSet (fs : FS) (p : String) (n : Node) : FS :=
  (p, n) :: fsRemove fs p

/-- Check modelling `os.Stat` succeeding: the path is present. -/
def fsExists (fs : FS) (p : String) : Bool :=
  (fsLookup fs p).isSome

/-- Model of `os.Rename src dst`: fails (returns `none`) when the source is absent,
otherwise moves the node. -/
def fsRename (fs : FS) (src dst : String) : Option FS :=
  match fsLookup fs src with
  | none => none
  | some n => some (fsSet (fsRemove fs src) dst n)

/-- Read the content a path resolves to, following one level of symbolic
link (blobs are always regular files, so one level suffices). -/
def fsResolve (fs : FS) (p : String) : Option String :=
  match fsLookup fs p with
  | some (.file c) => some c
  | some (.link t) =>
    match fsLookup fs t with
    | some (.file c) => some c
    | _ => none
  | none => none

/-! ## Per-file download (`downloadFile`, `downloadWithProgress`, `copyFile`) -/

/-- Outcome of the GET body transfer, as observed by the read loop of
`downloadWithProgress`: a request/status failure before any byte is read, a
read error after a partial prefix, or a complete stream of `data`. -/
inductive BodyFetch where
  | netError (msg : String)
  | streamError (partialData : String) (msg : String)
  | complete (data : String)
deriving Repr, DecidableEq

/-- Model of `downloadWithProgress` (downloader.go lines 330-400).  `os.Create`
creates/truncates the temporary file before the request is issued; the body is
then streamed into it; on completion the byte count is compared with the
expected size when that is positive.  Progress printing is elided.  Returns
the error outcome and the resulting filesystem. -/
def downloadWithProgressModel (body : BodyFetch) (expectedSize : Int)
    (filePath : String) (fs : FS) : Except String Unit × FS :=
  let fs1 := fsSet fs filePath (.file "")
  match body with
  | .netError m => (.error m, fs1)
  | .streamError p m => (.error m, fsSet fs1 filePath (.file p))
  | .complete data =>
    let fs2 := fsSet fs1 filePath (.file data)
    if expectedSize > 0 ∧ (data.length : Int) ≠ expectedSize then
      (.error "download size mismatch", fs2)
    else
      (.ok (), fs2)

/-- Model of `copyFile` (downloader.go lines 460-475): open the source (following a
symbolic link, failing when absent or dangling), then copy its content to the
destination.  `copyOk` is the oracle for the create/copy I/O succeeding;
`none` signals failure. -/
def copyFileModel (copyOk : Bool) (fs : FS) (src dst : String) : Option FS :=
  match fsLookup fs src with
  | none => none
  | some (.file c) => if copyOk then some (fsSet fs dst (.file c)) else none
  | some (.link t) =>
    match fsLookup fs t with
    | some (.file c) => if copyOk then some (fsSet fs dst (.file c)) else none
    | _ => none

/-- The fetch half of `downloadFile` (downloader.go lines 164-193): when the
blob is absent, probe the metadata (HEAD), stream the body into
`blobPath ++ ".incomplete"` and atomically rename it to `blobPath`.  `probe`
is the HEAD outcome (error, or the Content-Length size); returns the outcome,
the filesystem, and the network calls issued. -/
def fetchBlob (probe : Except String Int) (body : BodyFetch)
    (blobPath : String) (fs : FS) : Except String Unit × FS × List String :=
  if fsExists fs blobPath then (.ok (), fs, [])
  else
    match probe with
    | .error e => (.error ("error getting metadata: " ++ e), fs, ["HEAD"])
    | .ok sz =>
      match downloadWithProgressModel body sz (blobPath ++ ".incomplete") fs with
      | (.error e, fs1) => (.error ("error downloading: " ++ e), fs1, ["HEAD", "GET"])
      | (.ok _, fs1) =>
        match fsRename fs1 (blobPath ++ ".incomplete") blobPath with
        | none => (.error "error renaming temp file", fs1, ["HEAD", "GET"])
        | some fs2 => (.ok (), fs2, ["HEAD", "GET"])

/-- The publish half of `downloadFile` (downloader.go lines 195-215): with
symlink support, remove a pre-existing pointer and attempt a symbolic link;
a failed link is downgraded to a warning and retried as a copy; without
symlink support, copy directly.  The source computes a relative link target
with `filepath.Rel` (falling back to the absolute blob path); the model
stores the resolved blob path, which the relative target denotes.  Returns
the outcome, the filesystem and the warnings printed. -/
def publishPointer (symSupported symOk copyOk : Bool)
    (blobPath pointerPath : String) (fs : FS) :
    Except String Unit × FS × List String :=
  if symSupported then
    let fs1 := if fsExists fs pointerPath then fsRemove fs pointerPath else fs
    if symOk then (.ok (), fsSet fs1 pointerPath (.link blobPath), [])
    else
      match copyFileModel copyOk fs1 blobPath pointerPath with
      | some fs2 => (.ok (), fs2, ["Warning: Could not create symlink, copying file instead"])
      | none => (.error "error copying", fs1, ["Warning: Could not create symlink, copying file instead"])
  else
    match copyFileModel copyOk fs blobPath pointerPath with
    | some fs2 => (.ok (), fs2, [])
    | none => (.error "error copying", fs, [])

deriving instance DecidableEq for Except

/-- Result of one `downloadFile` call: the returned error outcome, the
filesystem, the network calls issued and the warnings printed. -/
structure FileRun where
  outcome : Except String Unit
  fs : FS
  netCalls : List String
  warnings : List String
deriving Repr, DecidableEq

/-- Model of `downloadFile` (downloader.go lines 155-219): compute the blob and
pointer paths, return at once when pointer and blob both exist, warn when the
pointer is stale (blob missing), otherwise fetch the blob if absent and then
publish the pointer.  Parent-directory creation is elided (modelled
filesystem paths need no parents). -/
def downloadFileModel (symSupported symOk copyOk : Bool)
    (probe : Except String Int) (body : BodyFetch)
    (storageFolder snapshotDir filename blobId : String) (fs : FS) : FileRun :=
  let blobPath := storageFolder ++ "/blobs/" ++ blobId
  let pointerPath := snapshotDir ++ "/" ++ filename
  let blobExists := fsExists fs blobPath
  if fsExists fs pointerPath && blobExists then
    { outcome := .ok (), fs := fs, netCalls := [], warnings := [] }
  else
    let staleWarn :=
      if fsExists fs pointerPath && !blobExists then
        ["Warning: Pointer exists but blob missing"]
      else []
    match fetchBlob probe body blobPath fs with
    | (.error e, fs1, net) =>
      { outcome := .error e, fs := fs1, netCalls := net, warnings := staleWarn }
    | (.ok _, fs1, net) =>
      let r := publishPointer symSupported symOk copyOk blobPath pointerPath fs1
      { outcome := r.1, fs := r.2.1, netCalls := net, warnings := staleWarn ++ r.2.2 }

/-! ## Orchestrator (`Download`) and the `Downloader` API -/

/-- The `Downloader` struct's configuration fields (the HTTP client is part
of the environment model below). -/
structure Downloader where
  customPath : String
  ignorePatterns : List String
deriving Repr, DecidableEq

/-- Model of `NewDownloader` (downloader.go lines 31-51): empty custom path and the
default ignore patterns. -/
def NewDownloader : Downloader :=
  { customPath := "", ignorePatterns := ["\\.md$", "\\.txt$"] }

/-- Model of `SetCustomPath` (lines 54-56). -/
def SetCustomPath (d : Downloader) (p : String) : Downloader :=
  { d with customPath := p }

/-- Model of `SetIgnorePatterns` (lines 59-61): stores the pattern list as given,
with no validation and no error return. -/
def SetIgnorePatterns (d : Downloader) (patterns : List String) : Downloader :=
  { d with ignorePatterns := patterns }

/-- The environment one `Download` call runs against: the external
collaborators of the source, as oracles.
`valid p` is whether `regexp.MustCompile p` succeeds (it panics otherwise);
`reMatch p s` is `MatchString` of the compiled pattern on `s`;
`homeDir` is the `os.UserHomeDir` outcome;
`resolve` is the network outcome of `getModelInfo`: the `X-Repo-Commit`
header value and the decoded tree listing, or a transport/status/decode
error;
`refWriteOk` is whether `os.WriteFile` on the ref path succeeds;
`taskOutcome` is the result of the `downloadFile` goroutine for one sibling
(the per-file model `downloadFileModel` refines it file-locally). -/
structure Env where
  valid : String → Bool
  reMatch : String → String → Bool
  homeDir : Except String String
  resolve : Except String (String × List TreeEntry)
  refWriteOk : Bool
  taskOutcome : Sibling → Except String Unit

/-- The value `Download` returns: a path, an error, or a panic raised by
`regexp.MustCompile`. -/
inductive Outcome where
  | ok (path : String)
  | error (msg : String)
  | panicked
deriving Repr, DecidableEq

/-- Observable result of one `Download` call: the returned value, the
directories passed to `os.MkdirAll` under the storage root, the ref files
written (path, content), the warnings printed, and the siblings for which a
download goroutine was launched. -/
structure DownloadResult where
  outcome : Outcome
  dirsCreated : List String
  refWrites : List (String × String)
  warnings : List String
  tasks : List Sibling
deriving Repr, DecidableEq

/-- Storage-folder determination of `Download` (lines 81-92): the custom
path when set, else `<home>/.cache/huggingface/hub/<repoFolderName>`. -/
def storageFolderOf (homeDir : Except String String) (d : Downloader)
    (modelRepo : String) : Except String String :=
  if d.customPath ≠ "" then .ok d.customPath
  else
    match homeDir with
    | .error _ => .error "could not get home directory"
    | .ok h => .ok (h ++ "/.cache/huggingface/hub/" ++ repoFolderName modelRepo "model")

/-- The fan-out filter of `Download` (lines 125-143): the siblings for
which a goroutine is launched — those whose logical path matches no
configured ignore pattern. -/
def launchedTasks (reMatch : String → String → Bool) (d : Downloader)
    (files : List TreeEntry) : List Sibling :=
  (siblingsOf files).filter
    (fun f => !d.ignorePatterns.any (fun p => reMatch p f.rid))

/-- The errors collected over the error channel (lines 136-150), in
manifest order: one wrapped error per launched task whose `downloadFile`
failed. -/
def fanOutErrors (reMatch : String → String → Bool)
    (taskOutcome : Sibling → Except String Unit) (d : Downloader)
    (files : List TreeEntry) : List String :=
  (launchedTasks reMatch d files).filterMap (fun f =>
    match taskOutcome f with
    | .error e => some ("error processing " ++ f.rid ++ ": " ++ e)
    | .ok _ => none)

/-- Model of `Download` (downloader.go lines 64-153).  In order: default the
revision, compile the ignore patterns (`regexp.MustCompile` panics on an
invalid one, before any network or filesystem activity), resolve the model
info, determine the storage folder, create the root/blobs/refs/snapshots
directories and the snapshot directory, write the ref pointer when the
revision differs from the commit hash (a failed write is only a warning),
launch one goroutine per non-ignored sibling, wait for all of them, and
return the first collected error or the storage folder.  Directory creation
itself is modelled as always succeeding (its error path is untouched by the
claims); each `os.MkdirAll` argument is recorded. -/
def Download (env : Env) (d : Downloader) (modelRepo revision0 : String) :
    DownloadResult :=
  let revision := if revision0 = "" then "main" else revision0
  if d.ignorePatterns.any (fun p => !env.valid p) then
    { outcome := .panicked, dirsCreated := [], refWrites := [], warnings := [], tasks := [] }
  else
    match env.resolve with
    | .error e =>
      { outcome := .error ("could not get model info: " ++ e),
        dirsCreated := [], refWrites := [], warnings := [], tasks := [] }
    | .ok (headerCommit, files) =>
      let commitHash := deriveCommitHash headerCommit files revision
      match storageFolderOf env.homeDir d modelRepo with
      | .error e =>
        { outcome := .error e, dirsCreated := [], refWrites := [], warnings := [], tasks := [] }
      | .ok storageFolder =>
        let snapshotDir := storageFolder ++ "/snapshots/" ++ commitHash
        let dirs := [storageFolder, storageFolder ++ "/blobs",
          storageFolder ++ "/refs", storageFolder ++ "/snapshots", snapshotDir]
        let refState :=
          if revision ≠ commitHash then
            if env.refWriteOk then
              ([(storageFolder ++ "/refs/" ++ revision, commitHash)], ([] : List String))
            else ([], ["Warning: Could not write revision reference"])
          else ([], [])
        let tasks := launchedTasks env.reMatch d files
        let errs := fanOutErrors env.reMatch env.taskOutcome d files
        let base : DownloadResult :=
          { outcome := .ok storageFolder, dirsCreated := dirs,
            refWrites := refState.1, warnings := refState.2, tasks := tasks }
        match errs with
        | [] => base
        | e :: _ => { base with outcome := .error e }

/-! ## Concrete scenarios used by witnesses and counterexamples -/

/-- A two-file tree listing: a binary file and a markdown file. -/
def filesA : List TreeEntry :=
  [{ type := "file", path := "a.bin", oid := "h1", size := 1 },
   { type := "file", path := "README.md", oid := "h2", size := 2 }]

/-- A happy-path environment: every pattern except `"("` compiles, the
only match is the default markdown pattern on `README.md`, the home
directory and the resolution succeed, ref writes succeed, and every
launched task succeeds. -/
def envA : Env :=
  { valid := fun p => p ≠ "(",
    reMatch := fun p s => p = "\\.md$" && s = "README.md",
    homeDir := .ok "/home/u",
    resolve := .ok ("c1", filesA),
    refWriteOk := true,
    taskOutcome := fun _ => .ok () }

/-- As `envA`, but metadata resolution fails. -/
def envB : Env :=
  { envA with resolve := .error "boom" }

/-- A caller-supplied storage root with no ignore patterns. -/
def dA : Downloader :=
  { customPath := "/m", ignorePatterns := [] }

/-- A one-blob filesystem: the pool holds blob `h` with content `"x"`. -/
def fsA : FS := [("/m/blobs/h", Node.file "x")]

/-! ## Interleaving model for two `downloadFile` goroutines sharing a blob id

`Download` launches one goroutine per sibling; two siblings with the same
`Blob` field run `downloadFile` concurrently over the same `blobPath` and,
crucially, the same temporary path `blobPath ++ ".incomplete"`.  Each
program counter below is one atomic filesystem or network action of the
happy path of `downloadFile` for a blob that is initially absent:
0 stat blob/pointer (early return when both exist), 1 HEAD probe,
2 `os.Create` of the shared temporary file, 3 streaming the body into it,
4 `os.Rename` of the temporary file onto the blob path, 5 the symlink
publish.  Both tasks receive byte-identical content (the content-addressing
assumption), so concurrent writes to the shared temporary file agree; the
schedules examined keep every write before the first rename, where
path-based and descriptor-based filesystem semantics coincide. -/

/-- Program counter and failure flag of one in-flight `downloadFile` task. -/
structure TaskState where
  pc : Nat
  failed : Bool
deriving Repr, DecidableEq

/-- Shared filesystem plus the two task states. -/
structure SysState where
  fs : FS
  t1 : TaskState
  t2 : TaskState
deriving Repr, DecidableEq

/-- One atomic step of a `downloadFile` task for blob `blobPath` (temporary
file `blobPath ++ ".incomplete"`), publishing `pointerPath`, streaming
`data`.  A failed task takes no further steps (the goroutine returned its
error). -/
def taskStep (blobPath pointerPath data : String) (ts : TaskState) (fs : FS) :
    TaskState × FS :=
  if ts.failed then (ts, fs)
  else
    match ts.pc with
    | 0 =>
      if fsExists fs pointerPath && fsExists fs blobPath then
        ({ pc := 6, failed := false }, fs)
      else ({ ts with pc := 1 }, fs)
    | 1 => ({ ts with pc := 2 }, fs)
    | 2 => ({ ts with pc := 3 }, fsSet fs (blobPath ++ ".incomplete") (.file ""))
    | 3 => ({ ts with pc := 4 }, fsSet fs (blobPath ++ ".incomplete") (.file data))
    | 4 =>
      match fsRename fs (blobPath ++ ".incomplete") blobPath with
      | some fs1 => ({ ts with pc := 5 }, fs1)
      | none => ({ ts with failed := true }, fs)
    | 5 => ({ ts with pc := 6 }, fsSet fs pointerPath (.link blobPath))
    | _ => (ts, fs)

/-- Run a schedule (`true` steps task 1, `false` steps task 2) over the
shared state; both tasks fetch the same blob and publish their own
pointers. -/
def runRace (blobPath pointer1 pointer2 data : String) (sched : List Bool)
    (s : SysState) : SysState :=
  match sched with
  | [] => s
  | b :: rest =>
    let s1 :=
      if b then
        let r := taskStep blobPath pointer1 data s.t1 s.fs
        { s with t1 := r.1, fs := r.2 }
      else
        let r := taskStep blobPath pointer2 data s.t2 s.fs
        { s with t2 := r.1, fs := r.2 }
    runRace blobPath pointer1 pointer2 data rest s1

/-- Concrete race scenario: storage root `/m`, snapshot `/m/snapshots/c`,
two siblings `a` and `b` sharing blob id `h`, content `"d"`, blob initially
absent. -/
def raceInit : SysState :=
  { fs := [], t1 := { pc := 0, failed := false }, t2 := { pc := 0, failed := false } }

/-- A schedule in which both tasks pass the existence checks and create the
shared temporary file before either renames: both probe, create and write,
then task 1 renames and publishes, then task 2 attempts its rename. -/
def raceSchedule : List Bool :=
  [true, false, true, false, true, false, true, false, true, false, true]

/-- The final state of the race scenario under `raceSchedule`. -/
def raceFinal : SysState :=
  runRace "/m/blobs/h" "/m/snapshots/c/a" "/m/snapshots/c/b" "d" raceSchedule raceInit

/-! ## Filesystem lemmas -/

theorem fsLookup_fsRemove_ne (fs : FS) (p q : String) (h : p ≠ q) :
    fsLookup (fsRemove fs p) q = fsLookup fs q := by
  induction fs with
  | nil => rfl
  | cons e rest ih =>
    cases e with
    | mk a n =>
      by_cases hap : a = p
      · subst hap
        simp [fsRemove, fsLookup, h, ih]
      · by_cases haq : a = q
        · subst haq
          simp [fsRemove, fsLookup, hap]
        · simp [fsRemove, fsLookup, hap, haq, ih]

theorem fsLookup_fsSet_self (fs : FS) (p : String) (n : Node) :
    fsLookup (fsSet fs p n) p = some n := by
  simp [fsSet, fsLookup]

theorem fsLookup_fsSet_ne (fs : FS) (p q : String) (n : Node) (h : p ≠ q) :
    fsLookup (fsSet fs p n) q = fsLookup fs q := by
  simp only [fsSet, fsLookup, if_neg h]
  exact fsLookup_fsRemove_ne fs p q h

theorem fsExists_fsSet_ne (fs : FS) (p q : String) (n : Node) (h : p ≠ q) :
    fsExists (fsSet fs p n) q = fsExists fs q := by
  simp [fsExists, fsLookup_fsSet_ne fs p q n h]

/-- A string is never equal to itself extended by the nonempty suffix
`".incomplete"`. -/
theorem ne_append_incomplete (s : String) : s ≠ s ++ ".incomplete" := by
  intro h
  have hl := congrArg String.length h
  rw [String.length_append] at hl
  have h11 : (".incomplete" : String).length = 11 := rfl
  rw [h11] at hl
  omega


/-! ## Claims -/

/-- C4: when the content-addressed blob already exists on disk, the
per-file operation issues no network call at all — neither the HEAD
metadata probe nor the GET body fetch. -/
theorem c4_cache_hit_no_network (symSupported symOk copyOk : Bool)
    (probe : Except String Int) (body : BodyFetch)
    (storageFolder snapshotDir filename blobId : String) (fs : FS)
    (hb : fsExists fs (storageFolder ++ "/blobs/" ++ blobId) = true) :
    (downloadFileModel symSupported symOk copyOk probe body
      storageFolder snapshotDir filename blobId fs).netCalls = [] := by
  have hfetch : fetchBlob probe body (storageFolder ++ "/blobs/" ++ blobId) fs
      = (.ok (), fs, []) := by
    unfold fetchBlob; simp [hb]
  unfold downloadFileModel
  by_cases hp : fsExists fs (snapshotDir ++ "/" ++ filename) = true
  · simp [hp, hb, hfetch]
  · have hp' : fsExists fs (snapshotDir ++ "/" ++ filename) = false := by
      simpa using hp
    simp [hp', hb, hfetch]

/-- Witness for C4: with blob `h` already pooled, no network call. -/
theorem c4_witness :
    (downloadFileModel true true true (.ok 1) (.complete "x")
      "/m" "/m/snapshots/c" "a" "h" fsA).netCalls = [] :=
  c4_cache_hit_no_network true true true (.ok 1) (.complete "x")
    "/m" "/m/snapshots/c" "a" "h" fsA rfl

/-- C3: when the blob is absent, the probe declares a positive size and the
streamed body's byte count differs from it, the per-file operation fails
with the size-mismatch error, the `.incomplete` temporary file is left on
disk, and the blob path is still absent from the pool (no corrupt blob is
promoted). -/
theorem c3_size_mismatch (symSupported symOk copyOk : Bool)
    (sz : Int) (data : String)
    (storageFolder snapshotDir filename blobId : String) (fs : FS)
    (hb : fsExists fs (storageFolder ++ "/blobs/" ++ blobId) = false)
    (hsz : 0 < sz)
    (hlen : (data.length : Int) ≠ sz) :
    ((downloadFileModel symSupported symOk copyOk (.ok sz) (.complete data)
        storageFolder snapshotDir filename blobId fs).outcome =
      .error ("error downloading: " ++ "download size mismatch") ∧
     fsExists (downloadFileModel symSupported symOk copyOk (.ok sz) (.complete data)
        storageFolder snapshotDir filename blobId fs).fs
       (storageFolder ++ "/blobs/" ++ blobId ++ ".incomplete") = true ∧
     fsExists (downloadFileModel symSupported symOk copyOk (.ok sz) (.complete data)
        storageFolder snapshotDir filename blobId fs).fs
       (storageFolder ++ "/blobs/" ++ blobId) = false) := by
  have hdwp : downloadWithProgressModel (.complete data) sz
      (storageFolder ++ "/blobs/" ++ blobId ++ ".incomplete") fs =
      (.error "download size mismatch",
        fsSet (fsSet fs (storageFolder ++ "/blobs/" ++ blobId ++ ".incomplete") (.file ""))
          (storageFolder ++ "/blobs/" ++ blobId ++ ".incomplete") (.file data)) := by
    unfold downloadWithProgressModel
    dsimp only
    rw [if_pos ⟨hsz, hlen⟩]
  have hfetch : fetchBlob (.ok sz) (.complete data)
      (storageFolder ++ "/blobs/" ++ blobId) fs =
      (.error ("error downloading: " ++ "download size mismatch"),
        fsSet (fsSet fs (storageFolder ++ "/blobs/" ++ blobId ++ ".incomplete") (.file ""))
          (storageFolder ++ "/blobs/" ++ blobId ++ ".incomplete") (.file data),
        ["HEAD", "GET"]) := by
    unfold fetchBlob
    simp [hb, hdwp]
  have htemp : storageFolder ++ "/blobs/" ++ blobId ++ ".incomplete" ≠
      storageFolder ++ "/blobs/" ++ blobId :=
    (ne_append_incomplete (storageFolder ++ "/blobs/" ++ blobId)).symm
  unfold downloadFileModel
  simp only [hb, Bool.and_false, Bool.false_eq_true, if_false, hfetch]
  refine ⟨trivial, ?_, ?_⟩
  · simp [fsExists, fsLookup_fsSet_self]
  · rw [fsExists_fsSet_ne _ _ _ _ htemp, fsExists_fsSet_ne _ _ _ _ htemp]
    exact hb

/-- Witness for C3: a one-byte body against a declared size of 2. -/
theorem c3_witness :
    ((downloadFileModel true true true (.ok 2) (.complete "x")
        "/m" "/m/snapshots/c" "a" "h" []).outcome =
      .error ("error downloading: " ++ "download size mismatch") ∧
     fsExists (downloadFileModel true true true (.ok 2) (.complete "x")
        "/m" "/m/snapshots/c" "a" "h" []).fs
       ("/m" ++ "/blobs/" ++ "h" ++ ".incomplete") = true ∧
     fsExists (downloadFileModel true true true (.ok 2) (.complete "x")
        "/m" "/m/snapshots/c" "a" "h" []).fs
       ("/m" ++ "/blobs/" ++ "h") = false) :=
  c3_size_mismatch true true true 2 "x" "/m" "/m/snapshots/c" "a" "h" []
    (by decide) (by decide) (by decide)

/-- C2, counterexample.  The claim says no link/copy I/O error is downgraded
to a warning.  With symlinks supported but the symlink call failing and the
copy fallback succeeding, `downloadFile` returns success and prints a
warning: the link I/O error was downgraded, not surfaced. -/
theorem c2_counterexample :
    (downloadFileModel true false true (.ok 1) (.complete "x")
      "/m" "/m/snapshots/c" "a" "h" fsA).outcome = .ok () ∧
    (downloadFileModel true false true (.ok 1) (.complete "x")
      "/m" "/m/snapshots/c" "a" "h" fsA).warnings =
      ["Warning: Could not create symlink, copying file instead"] := by
  refine ⟨rfl, rfl⟩

/-- C2, amended: a copy I/O failure always fails the per-file operation
with the copy error (both when symlinks are unsupported and when a failed
symlink fell back to the copy); a symlink I/O failure alone is downgraded
to a warning and the operation still succeeds through the copy fallback. -/
theorem c2_link_copy_errors (symSupported symOk copyOk : Bool)
    (probe : Except String Int) (body : BodyFetch)
    (storageFolder snapshotDir filename blobId c : String) (fs : FS)
    (hb : fsLookup fs (storageFolder ++ "/blobs/" ++ blobId) = some (.file c))
    (hp : fsExists fs (snapshotDir ++ "/" ++ filename) = false) :
    ((copyOk = false → (symSupported = false ∨ symOk = false) →
       (downloadFileModel symSupported symOk copyOk probe body
         storageFolder snapshotDir filename blobId fs).outcome =
           .error "error copying") ∧
     (symSupported = true → symOk = false → copyOk = true →
       (downloadFileModel symSupported symOk copyOk probe body
         storageFolder snapshotDir filename blobId fs).outcome = .ok () ∧
       (downloadFileModel symSupported symOk copyOk probe body
         storageFolder snapshotDir filename blobId fs).warnings =
         ["Warning: Could not create symlink, copying file instead"])) := by
  have hbe : fsExists fs (storageFolder ++ "/blobs/" ++ blobId) = true := by
    simp [fsExists, hb]
  have hfetch : fetchBlob probe body (storageFolder ++ "/blobs/" ++ blobId) fs
      = (.ok (), fs, []) := by
    unfold fetchBlob; simp [hbe]
  have hcopyFail : copyFileModel false fs (storageFolder ++ "/blobs/" ++ blobId)
      (snapshotDir ++ "/" ++ filename) = none := by
    unfold copyFileModel; simp [hb]
  have hcopyOkEq : copyFileModel true fs (storageFolder ++ "/blobs/" ++ blobId)
      (snapshotDir ++ "/" ++ filename) =
      some (fsSet fs (snapshotDir ++ "/" ++ filename) (.file c)) := by
    unfold copyFileModel; simp [hb]
  constructor
  · intro hco hsym
    subst hco
    rcases hsym with h1 | h1
    · subst h1
      unfold downloadFileModel publishPointer
      simp [hbe, hp, hfetch, hcopyFail]
    · subst h1
      by_cases hs : symSupported <;>
      · unfold downloadFileModel publishPointer
        simp [hbe, hp, hfetch, hcopyFail, hs]
  · intro h1 h2 h3
    subst h1; subst h2; subst h3
    unfold downloadFileModel publishPointer
    simp [hbe, hp, hfetch, hcopyOkEq]

/-- Witness for C2 (amended): symlinks supported, symlink and copy both
failing. -/
theorem c2_witness :
    ((false = false → (true = false ∨ false = false) →
       (downloadFileModel true false false (.ok 1) (.complete "x")
         "/m" "/m/snapshots/c" "a" "h" fsA).outcome =
           .error "error copying") ∧
     (true = true → false = false → false = true →
       (downloadFileModel true false false (.ok 1) (.complete "x")
         "/m" "/m/snapshots/c" "a" "h" fsA).outcome = .ok () ∧
       (downloadFileModel true false false (.ok 1) (.complete "x")
         "/m" "/m/snapshots/c" "a" "h" fsA).warnings =
         ["Warning: Could not create symlink, copying file instead"])) :=
  c2_link_copy_errors true false false (.ok 1) (.complete "x")
    "/m" "/m/snapshots/c" "a" "h" "x" fsA (by decide) (by decide)



/-! ## Claims -/

/-- C5, counterexample.  The claim says that with the commit header absent,
a non-empty listing makes the commit identifier equal the content hash of
the first listed file.  With a first listed file whose oid is empty,
`getModelInfo` instead falls through to the revision label: the code yields
`"main"` where the claimed derivation yields `""`. -/
theorem c5_counterexample :
    deriveCommitHash "" [{ type := "file", path := "a.bin", oid := "", size := 5 }] "main"
      = "main" ∧
    claimedCommitId "" [{ type := "file", path := "a.bin", oid := "", size := 5 }] "main"
      = "" ∧
    deriveCommitHash "" [{ type := "file", path := "a.bin", oid := "", size := 5 }] "main"
      ≠ claimedCommitId "" [{ type := "file", path := "a.bin", oid := "", size := 5 }] "main" := by
  refine ⟨rfl, rfl, ?_⟩
  decide

/-- C5, amended: the commit identifier equals the commit header when that is
non-empty; otherwise, when the listing is non-empty and the oid of its first
entry is non-empty, it equals that oid; otherwise it equals the
caller-supplied revision label. -/
theorem c5_commit_derivation (headerCommit : String) (files : List TreeEntry)
    (revision : String) :
    deriveCommitHash headerCommit files revision
      = amendedCommitId headerCommit files revision := by
  unfold deriveCommitHash amendedCommitId
  cases files with
  | nil => by_cases h : headerCommit = "" <;> simp [h]
  | cons f rest =>
    by_cases h : headerCommit = "" <;> by_cases ho : f.oid = "" <;> simp [h, ho]

/-- C9: two manifest entries sharing blob id `h` race on the shared
temporary file `blobs/h.incomplete`.  Under `raceSchedule` both tasks pass
the existence checks and create the temporary file before either renames;
the first task's rename then removes it, the second task's rename fails, its
per-file operation errors out, and its snapshot pointer is never created —
refuting the claim that both snapshot paths end up resolving to the blob. -/
theorem c9_duplicate_hash_race :
    fsExists raceFinal.fs "/m/blobs/h" = true ∧
    fsResolve raceFinal.fs "/m/snapshots/c/a" = some "d" ∧
    raceFinal.t2.failed = true ∧
    fsResolve raceFinal.fs "/m/snapshots/c/b" = none := by
  decide

/-- C10: `SetIgnorePatterns` stores any pattern list unchecked, and when one
of the stored patterns fails to compile, `Download` panics (the
`regexp.MustCompile` loop) with no directory created, no ref written, no
warning printed and no task launched — instead of returning an error
value. -/
theorem c10_invalid_pattern_panics (env : Env) (d : Downloader)
    (ps : List String) (repo rev p : String)
    (hp : p ∈ ps) (hv : env.valid p = false) :
    (SetIgnorePatterns d ps).ignorePatterns = ps ∧
    Download env (SetIgnorePatterns d ps) repo rev =
      { outcome := .panicked, dirsCreated := [], refWrites := [],
        warnings := [], tasks := [] } := by
  refine ⟨rfl, ?_⟩
  have hany : ps.any (fun q => !env.valid q) = true :=
    List.any_eq_true.mpr ⟨p, hp, by simp [hv]⟩
  unfold Download
  simp [SetIgnorePatterns, hany]

/-- Witness for C10 at the invalid pattern `"("`. -/
theorem c10_witness :
    (SetIgnorePatterns NewDownloader ["("]).ignorePatterns = ["("] ∧
    Download envA (SetIgnorePatterns NewDownloader ["("]) "o/r" "main" =
      { outcome := .panicked, dirsCreated := [], refWrites := [],
        warnings := [], tasks := [] } :=
  c10_invalid_pattern_panics envA NewDownloader ["("] "o/r" "main" "("
    (by decide) (by decide)

/-- C7: when metadata resolution fails, `Download` returns the resolution
error (wrapped as a could-not-get-model-info error) and has created no
directory, written no ref, printed no warning and launched no task. -/
theorem c7_resolution_failure_no_dirs (env : Env) (d : Downloader)
    (repo rev e : String)
    (hval : d.ignorePatterns.any (fun p => !env.valid p) = false)
    (hres : env.resolve = .error e) :
    Download env d repo rev =
      { outcome := .error ("could not get model info: " ++ e),
        dirsCreated := [], refWrites := [], warnings := [], tasks := [] } := by
  unfold Download
  simp [hval, hres]

/-- Witness for C7: a failing resolution against the default downloader. -/
theorem c7_witness :
    Download envB NewDownloader "o/r" "main" =
      { outcome := .error ("could not get model info: " ++ "boom"),
        dirsCreated := [], refWrites := [], warnings := [], tasks := [] } :=
  c7_resolution_failure_no_dirs envB NewDownloader "o/r" "main" "boom"
    (by decide) rfl

/-- C6: a sibling whose logical path matches at least one of the configured
ignore patterns is never among the launched tasks of `Download` — no fetch
goroutine, hence no blob fetch and no snapshot entry, is started for it. -/
theorem c6_ignored_entries_not_launched (env : Env) (d : Downloader)
    (repo rev : String) (f : Sibling)
    (hm : d.ignorePatterns.any (fun p => env.reMatch p f.rid) = true) :
    f ∉ (Download env d repo rev).tasks := by
  intro hmem
  have htask : ∀ l : List TreeEntry,
      f ∈ (siblingsOf l).filter
        (fun g => !d.ignorePatterns.any (fun p => env.reMatch p g.rid)) → False := by
    intro l hf
    have h2 := (List.mem_filter.mp hf).2
    rw [hm] at h2
    simp at h2
  by_cases hg : d.ignorePatterns.any (fun q => !env.valid q) = true
  · have hz : (Download env d repo rev).tasks = [] := by
      unfold Download; simp [hg]
    rw [hz] at hmem; simp at hmem
  · have hg' : d.ignorePatterns.any (fun q => !env.valid q) = false := by
      simpa using hg
    cases hres : env.resolve with
    | error e =>
      have hz : (Download env d repo rev).tasks = [] := by
        unfold Download; simp [hg', hres]
      rw [hz] at hmem; simp at hmem
    | ok pr =>
      obtain ⟨hc, files⟩ := pr
      cases hsf : storageFolderOf env.homeDir d repo with
      | error e =>
        have hz : (Download env d repo rev).tasks = [] := by
          unfold Download; simp [hg', hres, hsf]
        rw [hz] at hmem; simp at hmem
      | ok sf =>
        have hz : (Download env d repo rev).tasks =
            (siblingsOf files).filter
              (fun g => !d.ignorePatterns.any (fun p => env.reMatch p g.rid)) := by
          unfold Download
          simp only [hg', hres, hsf, Bool.false_eq_true, if_false]
          cases herrs : fanOutErrors env.reMatch env.taskOutcome d files <;> simp [herrs, launchedTasks]
        rw [hz] at hmem
        exact htask files hmem

/-- Witness for C6: the markdown sibling of `filesA` matches the default
markdown pattern and is excluded from the fan-out. -/
theorem c6_witness :
    ({ rid := "README.md", size := 2, blob := "h2" } : Sibling) ∉
      (Download envA NewDownloader "o/r" "main").tasks :=
  c6_ignored_entries_not_launched envA NewDownloader "o/r" "main"
    { rid := "README.md", size := 2, blob := "h2" } (by decide)

/-- C8: with a caller-supplied root and a successful resolution, when the
revision label differs from the derived commit hash the file
`root/refs/<revision>` is written with the commit hash; when that write
fails only a warning is printed and the returned outcome is the one a
successful write would have produced; when the revision equals the commit
hash no ref file is written. -/
theorem c8_ref_pointer (env : Env) (d : Downloader) (repo rev hc : String)
    (files : List TreeEntry)
    (hval : d.ignorePatterns.any (fun p => !env.valid p) = false)
    (hres : env.resolve = .ok (hc, files))
    (hcp : d.customPath ≠ "")
    (hrev : rev ≠ "") :
    ((rev ≠ deriveCommitHash hc files rev → env.refWriteOk = true →
        (Download env d repo rev).refWrites =
          [(d.customPath ++ "/refs/" ++ rev, deriveCommitHash hc files rev)]) ∧
     (rev ≠ deriveCommitHash hc files rev → env.refWriteOk = false →
        (Download env d repo rev).refWrites = [] ∧
        (Download env d repo rev).warnings =
          ["Warning: Could not write revision reference"] ∧
        (Download env d repo rev).outcome =
          (Download { env with refWriteOk := true } d repo rev).outcome) ∧
     (rev = deriveCommitHash hc files rev →
        (Download env d repo rev).refWrites = [])) := by
  have hsf : storageFolderOf env.homeDir d repo = .ok d.customPath := by
    unfold storageFolderOf; simp [hcp]
  refine ⟨?_, ?_, ?_⟩
  · intro hne hok
    cases herrs : fanOutErrors env.reMatch env.taskOutcome d files <;>
    · unfold Download
      simp only [hval, Bool.false_eq_true, if_false, hres, hsf, if_neg hrev, herrs]
      simp [hne, hok]
  · intro hne hok
    cases herrs : fanOutErrors env.reMatch env.taskOutcome d files <;>
    · unfold Download
      simp only [hval, Bool.false_eq_true, if_false, hres, hsf, if_neg hrev, herrs]
      simp [hne, hok]
  · intro heq
    cases herrs : fanOutErrors env.reMatch env.taskOutcome d files <;>
    · unfold Download
      simp only [hval, Bool.false_eq_true, if_false, hres, hsf, if_neg hrev, herrs]
      simp [← heq]

/-- Witness for C8 on the happy-path environment (`"main" ≠ "c1"`). -/
theorem c8_witness :
    (("main" ≠ deriveCommitHash "c1" filesA "main" → envA.refWriteOk = true →
        (Download envA dA "o/r" "main").refWrites =
          [(dA.customPath ++ "/refs/" ++ "main", deriveCommitHash "c1" filesA "main")]) ∧
     ("main" ≠ deriveCommitHash "c1" filesA "main" → envA.refWriteOk = false →
        (Download envA dA "o/r" "main").refWrites = [] ∧
        (Download envA dA "o/r" "main").warnings =
          ["Warning: Could not write revision reference"] ∧
        (Download envA dA "o/r" "main").outcome =
          (Download { envA with refWriteOk := true } dA "o/r" "main").outcome) ∧
     ("main" = deriveCommitHash "c1" filesA "main" →
        (Download envA dA "o/r" "main").refWrites = [])) :=
  c8_ref_pointer envA dA "o/r" "main" "c1" filesA (by decide) rfl (by decide) (by decide)

/-- C1, counterexample: on a fully successful invocation `Download` returns
the storage root (here the caller-supplied `/m`), not the snapshot
directory `/m/snapshots/c1` that it created and populated — refuting the
claimed contract `download(...) -> snapshot_dir`. -/
theorem c1_counterexample :
    (Download envA dA "o/r" "main").outcome = .ok "/m" ∧
    (Download envA dA "o/r" "main").dirsCreated.contains "/m/snapshots/c1" = true ∧
    (Download envA dA "o/r" "main").outcome ≠ .ok "/m/snapshots/c1" := by
  refine ⟨rfl, rfl, ?_⟩
  decide

/-- C1, amended: every successful `Download` returns the storage root — the
caller-supplied custom path, or the per-repo folder under the default cache
root — under which `snapshots/<commit_id>` was populated. -/
theorem c1_returns_storage_root (env : Env) (d : Downloader)
    (repo rev p : String)
    (h : (Download env d repo rev).outcome = .ok p) :
    storageFolderOf env.homeDir d repo = .ok p := by
  by_cases hg : d.ignorePatterns.any (fun q => !env.valid q) = true
  · exfalso
    have hz : (Download env d repo rev).outcome = .panicked := by
      unfold Download; simp [hg]
    rw [hz] at h; exact absurd h (by simp)
  · have hg' : d.ignorePatterns.any (fun q => !env.valid q) = false := by
      simpa using hg
    cases hres : env.resolve with
    | error e =>
      exfalso
      have hz : (Download env d repo rev).outcome =
          .error ("could not get model info: " ++ e) := by
        unfold Download; simp [hg', hres]
      rw [hz] at h; exact absurd h (by simp)
    | ok pr =>
      obtain ⟨hc, files⟩ := pr
      cases hsf : storageFolderOf env.homeDir d repo with
      | error e =>
        exfalso
        have hz : (Download env d repo rev).outcome = .error e := by
          unfold Download; simp [hg', hres, hsf]
        rw [hz] at h; exact absurd h (by simp)
      | ok sf =>
        have hsp : sf = p := by
          unfold Download at h
          simp only [hg', hres, hsf, Bool.false_eq_true, if_false] at h
          cases herrs : fanOutErrors env.reMatch env.taskOutcome d files <;> rw [herrs] at h <;> simp_all
        rw [hsp]

/-- Witness for C1 (amended) on the happy-path invocation. -/
theorem c1_witness : storageFolderOf envA.homeDir dA "o/r" = .ok "/m" :=
  c1_returns_storage_root envA dA "o/r" "main" "/m" (by decide)

end HfDownloader
